import Mathlib

/-
Verification of the yew_styles component library (Button and FormTextArea).

The development shallowly embeds the two component source files
(src/crate/yew_styles/src/components/button.rs and
src/crate/yew_styles/src/components/forms/form_textarea.rs).
Helpers that those files import from crate::styles but whose sources are
not part of the repository snapshot (get_palette, get_pallete, get_style,
the helpers get_size, get_styles, darker, get_iteractions) are modelled
from the specification, as marked on each definition.
-/

namespace YewStyles

/-- The closed set of palette tokens (spec section 2: Standard, Info, Success,
Warning, Danger, Light, Dark, Clean, Secondary). -/
inductive Palette where
  | Standard
  | Info
  | Success
  | Warning
  | Danger
  | Light
  | Dark
  | Clean
  | Secondary
deriving DecidableEq, Repr

/-- The size tokens (button.rs `Size`, also used by FormTextArea). -/
inductive Size where
  | Small
  | Medium
  | Big
deriving DecidableEq, Repr

/-- The button style modes (crate::styles `Style`; spec section 3 lists
Light, Regular, Outline). -/
inductive Style where
  | Light
  | Regular
  | Outline
deriving DecidableEq, Repr

/-- Modelled from the spec: `get_palette` of crate::styles::helpers is absent
from the snapshot; per the spec each palette token is mapped 1:1 to its
lowercase string literal. -/
def get_palette : Palette → String
  | .Standard => "standard"
  | .Info => "info"
  | .Success => "success"
  | .Warning => "warning"
  | .Danger => "danger"
  | .Light => "light"
  | .Dark => "dark"
  | .Clean => "clean"
  | .Secondary => "secondary"

/-- An RGB color value. The spec treats colors as opaque valid CSS color
values; channels are modelled as 0..255 naturals. -/
structure ColorValue where
  r : Nat
  g : Nat
  b : Nat
deriving DecidableEq, Repr

/-- Clamp an integer channel value into the valid 0..255 range. -/
def clampChannel (x : Int) : Nat := (max 0 (min 255 x)).toNat

/-- Modelled from the spec: the Shade Deriver `darker` of
crate::styles::helpers is absent from the snapshot. Spec section 4.2:
negative percent darkens, positive lightens, channels are clamped so that
percent -100 reaches black and percent 100 reaches white, and percent 0 is
the identity. Percentages are modelled as integers. -/
def darker (c : ColorValue) (percent : Int) : ColorValue :=
  let amt : Int := percent * 255 / 100
  { r := clampChannel (Int.ofNat c.r + amt)
    g := clampChannel (Int.ofNat c.g + amt)
    b := clampChannel (Int.ofNat c.b + amt) }

/-- A palette registry entry (spec section 3: name, base color, border color
and the three pre-computed interaction shades). The component code reads the
fields `name`, `color` and `border_color`. -/
structure PaletteEntry where
  name : String
  color : ColorValue
  border_color : ColorValue
  hover_color : ColorValue
  focus_color : ColorValue
  active_color : ColorValue
deriving DecidableEq, Repr

/-- Build a registry entry for one token: interaction shades are the
pre-computed darker variants of the border color with the fixed deltas of
spec section 4.3 (hover -20, focus -10, active -30). -/
def mkEntry (nm : String) (base border : ColorValue) : PaletteEntry :=
  { name := nm
    color := base
    border_color := border
    hover_color := darker border (-20)
    focus_color := darker border (-10)
    active_color := darker border (-30) }

/-- Modelled from the spec: the entries of the "outline" sub-table of the
palette registry, one per token of the closed set. The concrete channel
values are representative (the spec fixes the structure of the registry, not
the numeric color values). -/
def outlineEntries : List PaletteEntry :=
  [ mkEntry "standard" { r := 255, g := 255, b := 255 } { r := 128, g := 128, b := 128 }
  , mkEntry "info" { r := 23, g := 162, b := 184 } { r := 23, g := 162, b := 184 }
  , mkEntry "success" { r := 40, g := 167, b := 69 } { r := 40, g := 167, b := 69 }
  , mkEntry "warning" { r := 255, g := 193, b := 7 } { r := 255, g := 193, b := 7 }
  , mkEntry "danger" { r := 220, g := 53, b := 69 } { r := 220, g := 53, b := 69 }
  , mkEntry "light" { r := 248, g := 249, b := 250 } { r := 248, g := 249, b := 250 }
  , mkEntry "dark" { r := 52, g := 58, b := 64 } { r := 52, g := 58, b := 64 }
  , mkEntry "clean" { r := 255, g := 255, b := 255 } { r := 200, g := 200, b := 200 }
  , mkEntry "secondary" { r := 108, g := 117, b := 125 } { r := 108, g := 117, b := 125 } ]

/-- Modelled from the spec: `get_styles` of crate::styles::colors is absent
from the snapshot. Spec sections 3 and 4.1: a process-wide read-only mapping
from style-mode keys to sub-tables holding exactly one entry per palette
token. The component code reads the "outline" sub-table. -/
def get_styles : List (String × List PaletteEntry) :=
  [ ("regular", outlineEntries), ("outline", outlineEntries) ]

/-- A single CSS declaration value: either a literal, a bare color, or a
border shorthand carrying a color. -/
inductive CssValue where
  | lit (s : String)
  | col (c : ColorValue)
  | onePxSolid (c : ColorValue)
  | twoPxSolid (c : ColorValue)
deriving DecidableEq, Repr

/-- One CSS rule of a style definition: a selector suffix and its
property/value declarations, in source order. -/
structure CssRule where
  selector : String
  decls : List (String × CssValue)
deriving DecidableEq, Repr

/-- Find the declarations of the first rule with the given selector. -/
def findRule (rules : List CssRule) (sel : String) : Option (List (String × CssValue)) :=
  (rules.find? (fun r => r.selector == sel)).map CssRule.decls

/-- Modelled from the spec: `get_iteractions` of crate::styles::helpers is
absent from the snapshot. Spec section 4.3: one rule per interaction state in
insertion order hover, focus, active, each shade obtained from the Shade
Deriver; the three percentages are taken as focus, hover, active so that the
call site in form_textarea.rs (-10, -20, -30) realises the documented fixed
deltas hover -20, focus -10, active -30, the same binding the adjacent
underline rules of the source spell out. -/
def get_iteractions (attr : String) (c : ColorValue)
    (focusPercent hoverPercent activePercent : Int) : List CssRule :=
  [ { selector := "&:hover", decls := [(attr, CssValue.col (darker c hoverPercent))] }
  , { selector := "&:focus", decls := [(attr, CssValue.col (darker c focusPercent))] }
  , { selector := "&:active", decls := [(attr, CssValue.col (darker c activePercent))] } ]

/-- The palette lookup performed by FormTextArea.style_from
(form_textarea.rs 164-170): read the "outline" sub-table, then find the
entry whose name matches the palette token of the properties. The two
`unwrap` calls of the source are the two Option layers. -/
def styleFromLookup (p : Palette) : Option PaletteEntry :=
  match List.lookup "outline" get_styles with
  | none => none
  | some entries => entries.find? (fun e => e.name == get_palette p)

/-- The composed style of FormTextArea (form_textarea.rs 163-235): the css
block of style_from, rule by rule in source order, with the interaction
rules spliced in where the source interpolates get_iteractions and the
placeholder/underline rules using the looked-up entry. `none` models the
panic of the unwraps when the lookup fails. -/
def style_from (p : Palette) : Option (List CssRule) :=
  match styleFromLookup p with
  | none => none
  | some color =>
    some (
      [ { selector := ""
          decls :=
            [ ("padding", CssValue.lit "5px")
            , ("height", CssValue.lit "100px")
            , ("box-sizing", CssValue.lit "border-box")
            , ("border-radius", CssValue.lit "5px")
            , ("width", CssValue.lit "100%")
            , ("border", CssValue.onePxSolid color.border_color) ] } ]
      ++ get_iteractions "border-color" color.border_color (-10) (-20) (-30)
      ++ [ { selector := "&.hidden", decls := [("display", CssValue.lit "none")] }
         , { selector := "&::-webkit-input-placeholder"
             decls := [("color", CssValue.col color.color)] }
         , { selector := "&:-moz-placeholder"
             decls := [("color", CssValue.col color.color)] }
         , { selector := "&::-moz-placeholder"
             decls := [("color", CssValue.col color.color)] }
         , { selector := "&:-ms-input-placeholder"
             decls := [("color", CssValue.col color.color)] }
         , { selector := "&.small", decls := [("height", CssValue.lit "50px")] }
         , { selector := "&.big", decls := [("height", CssValue.lit "250px")] }
         , { selector := "&.underline"
             decls :=
               [ ("border-radius", CssValue.lit "2px")
               , ("border-top", CssValue.lit "0")
               , ("border-left", CssValue.lit "0")
               , ("border-right", CssValue.lit "0")
               , ("border-bottom", CssValue.twoPxSolid color.border_color) ] }
         , { selector := "&.underline:focus"
             decls := [("border-bottom-color", CssValue.col (darker color.border_color (-10)))] }
         , { selector := "&.underline:hover"
             decls := [("border-bottom-color", CssValue.col (darker color.border_color (-20)))] }
         , { selector := "&.underline:active"
             decls := [("border-bottom-color", CssValue.col (darker color.border_color (-30)))] } ])

namespace Helpers

/-- Modelled from the spec: `get_size` of crate::styles::helpers is absent
from the snapshot; spec section 3 maps the size enum 1:1 to string literals,
as the in-snapshot button.rs get_size also does. -/
def get_size : Size → String
  | .Small => "small"
  | .Medium => "medium"
  | .Big => "big"

end Helpers

namespace Button

/-- Size token resolution of the Button (button.rs 117-123). -/
def get_size : Size → String
  | .Small => "small"
  | .Medium => "medium"
  | .Big => "big"

/-- Modelled from the spec: `get_style` of crate::styles is absent from the
snapshot; per the spec each style mode maps 1:1 to its lowercase literal. -/
def get_style : Style → String
  | .Light => "light"
  | .Regular => "regular"
  | .Outline => "outline"

/-- Modelled from the spec: `get_pallete` of crate::styles is absent from the
snapshot; it carries the same token mapping as get_palette. -/
def get_pallete (p : Palette) : String := get_palette p

/-- The public property set of the Button (button.rs `Props`). Callbacks and
children are modelled as opaque identifiers. -/
structure Props where
  button_type : Palette
  class_name : String
  size : Size
  button_style : Style
  onsignal : Nat
  children : Nat
deriving DecidableEq, Repr

/-- The resolved internal property set of the Button (button.rs
`ButtonProps`): the three tokens already resolved to strings. -/
structure ButtonProps where
  button_type : String
  size : String
  button_style : String
  class_name : String
  onsignal : Nat
  children : Nat
deriving DecidableEq, Repr

/-- The From conversion of button.rs 81-92: resolve each token. -/
def ButtonProps.fromProps (p : Props) : ButtonProps :=
  { button_type := get_pallete p.button_type
    size := get_size p.size
    button_style := get_style p.button_style
    class_name := p.class_name
    onsignal := p.onsignal
    children := p.children }

/-- The class attribute built by Button.view (button.rs 155-159):
format "button {} {} {} {}" over button_type, size, button_style,
class_name. -/
def buttonClass (p : ButtonProps) : String :=
  "button " ++ p.button_type ++ " " ++ p.size ++ " " ++ p.button_style ++ " " ++ p.class_name

/-- The message type of the Button (button.rs `Msg`). -/
inductive Msg where
  | Clicked
deriving DecidableEq, Repr

/-- Result of one update call: the list of (callback, payload) emissions it
performed, and the ShouldRender flag it returned. -/
structure UpdateResult where
  emitted : List (Nat × Unit)
  shouldRender : Bool
deriving DecidableEq, Repr

/-- Button.update (button.rs 136-144): on Clicked, emit the unit payload on
the onsignal callback of the current properties and return false. -/
def update (p : ButtonProps) (m : Msg) : UpdateResult :=
  match m with
  | .Clicked => { emitted := [(p.onsignal, ())], shouldRender := false }

/-- Button.change (button.rs 146-149): unconditionally replace the stored
resolved properties with the conversion of the incoming ones and return
true. The previous state is not consulted. -/
def change (_state : ButtonProps) (props : Props) : ButtonProps × Bool :=
  (ButtonProps.fromProps props, true)

end Button

namespace FormTextArea

/-- The wrap modes of the textarea (form_textarea.rs `WrapText`). -/
inductive WrapText where
  | Hard
  | Soft
  | Off
deriving DecidableEq, Repr

/-- The payload of an input event (yew InputData), reduced to its value. -/
structure InputData where
  value : String
deriving DecidableEq, Repr

/-- An opaque native focus event. -/
structure FocusEvent where
  eventId : Nat
deriving DecidableEq, Repr

/-- An opaque native keyboard event. -/
structure KeyboardEvent where
  eventId : Nat
  key : String
deriving DecidableEq, Repr

/-- The property set of the FormTextArea (form_textarea.rs `Props`).
Callbacks are opaque identifiers; the NodeRef and the caller style source
are modelled as a Nat and a rule list. -/
structure Props where
  code_ref : Nat
  key : String
  class_name : String
  id : String
  placeholder : String
  textarea_style : Palette
  textarea_size : Size
  maxlength : Nat
  minlength : Nat
  disabled : Bool
  name : String
  readonly : Bool
  required : Bool
  autofocus : Bool
  autocomplete : Bool
  cols : Nat
  rows : Nat
  spellcheck : Bool
  oninput_signal : Nat
  onblur_signal : Nat
  onkeydown_signal : Nat
  error_state : Bool
  error_message : String
  wrap : WrapText
  styles : List CssRule
deriving DecidableEq, Repr

/-- The message type of the FormTextArea (form_textarea.rs `Msg`). -/
inductive Msg where
  | Input (d : InputData)
  | Blur (e : FocusEvent)
  | KeyPressed (e : KeyboardEvent)
deriving DecidableEq, Repr

/-- One callback emission performed by update: which callback received which
payload. -/
inductive Emission where
  | input (cb : Nat) (d : InputData)
  | blur (cb : Nat) (e : FocusEvent)
  | keydown (cb : Nat) (e : KeyboardEvent)
deriving DecidableEq, Repr

/-- Result of one update call: emissions in order, and the ShouldRender
flag. -/
structure UpdateResult where
  emissions : List Emission
  shouldRender : Bool
deriving DecidableEq, Repr

/-- FormTextArea.update (form_textarea.rs 246-260): each message forwards
its event payload to the matching signal callback of the current properties
and returns true. -/
def update (p : Props) (m : Msg) : UpdateResult :=
  match m with
  | .Input d => { emissions := [Emission.input p.oninput_signal d], shouldRender := true }
  | .Blur e => { emissions := [Emission.blur p.onblur_signal e], shouldRender := true }
  | .KeyPressed e => { emissions := [Emission.keydown p.onkeydown_signal e], shouldRender := true }

/-- FormTextArea.change (form_textarea.rs 262-269): if the incoming
properties differ from the stored ones, replace them wholesale and return
true, else keep the stored ones and return false. -/
def change (state props : Props) : Props × Bool :=
  if state ≠ props then (props, true) else (state, false)

/-- The wrap-mode mapping (form_textarea.rs 307-313). -/
def get_wrap : WrapText → String
  | .Hard => "hard"
  | .Off => "soft"
  | .Soft => "off"

/-- One element of the class list of the rendered textarea: either a style
source (the computed style or the caller-injected one) or a plain class
token. -/
inductive ClassItem where
  | style (rules : List CssRule)
  | text (s : String)
deriving DecidableEq, Repr

/-- The class list of the textarea element (form_textarea.rs 276-281):
classes!(self.style(), get_size(textarea_size), class_name, styles), where
self.style() is the style source composed by style_from. `none` models the
panic inside style_from when the palette lookup fails. -/
def viewClasses (p : Props) : Option (List ClassItem) :=
  match style_from p.textarea_style with
  | none => none
  | some rules =>
    some
      [ ClassItem.style rules
      , ClassItem.text (Helpers.get_size p.textarea_size)
      , ClassItem.text p.class_name
      , ClassItem.style p.styles ]

/-- An attribute value of the rendered textarea: a string or a boolean
flag. -/
inductive AttrValue where
  | str (s : String)
  | flag (b : Bool)
deriving DecidableEq, Repr

/-- The named attributes of the textarea element (form_textarea.rs 274-299)
in source order; class (modelled by viewClasses), ref and the three event
handlers are modelled separately. Attributes the source writes through
to_string are rendered with toString. -/
def viewAttributes (p : Props) : List (String × AttrValue) :=
  [ ("id", AttrValue.str p.id)
  , ("key", AttrValue.str p.key)
  , ("name", AttrValue.str p.name)
  , ("autocomplete", AttrValue.str (toString p.autocomplete))
  , ("autofocus", AttrValue.flag p.autofocus)
  , ("required", AttrValue.flag p.required)
  , ("readonly", AttrValue.flag p.readonly)
  , ("disabled", AttrValue.flag p.disabled)
  , ("rows", AttrValue.str (toString p.rows))
  , ("placeholder", AttrValue.str p.placeholder)
  , ("cols", AttrValue.str (toString p.cols))
  , ("spellcheck", AttrValue.str (toString p.spellcheck))
  , ("minlength", AttrValue.str (toString p.minlength))
  , ("maxlength", AttrValue.str (toString p.maxlength))
  , ("warp", AttrValue.str (get_wrap p.wrap)) ]

end FormTextArea

/-- Concrete Button properties used for counterexamples: the resolved tokens
of the end-to-end scenario of spec section 8. -/
def demoButtonProps : Button.Props :=
  { button_type := Palette.Standard
    class_name := "hello-world"
    size := Size.Medium
    button_style := Style.Regular
    onsignal := 0
    children := 0 }

/-- Concrete FormTextArea properties, mirroring the should_create_form_textarea
test of form_textarea.rs. -/
def demoFormProps : FormTextArea.Props :=
  { code_ref := 0
    key := ""
    class_name := "form-input-class-test"
    id := "form-input-id-test"
    placeholder := "test input"
    textarea_style := Palette.Standard
    textarea_size := Size.Medium
    maxlength := 100
    minlength := 0
    disabled := false
    name := "input-test"
    readonly := false
    required := false
    autofocus := false
    autocomplete := false
    cols := 20
    rows := 10
    spellcheck := true
    oninput_signal := 0
    onblur_signal := 0
    onkeydown_signal := 0
    error_state := false
    error_message := "invalid input"
    wrap := FormTextArea.WrapText.Hard
    styles := [] }

/-- A second concrete property set differing from demoFormProps in one field. -/
def demoFormPropsAlt : FormTextArea.Props :=
  { demoFormProps with rows := 11 }

/-- The palette lookup of style_from succeeds on every token, returning some
entry together with the composed rule list. -/
theorem style_from_total (p : Palette) :
    ∃ e rs, styleFromLookup p = some e ∧ style_from p = some rs := by
  cases p <;> exact ⟨_, _, rfl, rfl⟩

/-- C1: a Button whose resolved tokens are palette "standard", size "medium",
style "regular" and caller class name "hello-world" renders the class string
exactly "button standard medium regular hello-world": base, palette, size,
style and caller class joined by single spaces in that fixed order. -/
theorem C1_button_class_string :
    Button.buttonClass
        { button_type := "standard", size := "medium", button_style := "regular",
          class_name := "hello-world", onsignal := 0, children := 0 }
      = "button standard medium regular hello-world" := rfl

/-- C2 counterexample: with the empty caller class name the Button class
string is not "button standard medium regular" — the format string of
Button.view keeps the separator before the empty field. -/
theorem C2_empty_class_counterexample :
    Button.buttonClass
        { button_type := "standard", size := "medium", button_style := "regular",
          class_name := "", onsignal := 0, children := 0 }
      ≠ "button standard medium regular" := by decide

/-- C2 (amended): with the empty caller class name the Button class string is
"button standard medium regular " with a trailing space: the empty field is
not omitted, only left empty after its separator. -/
theorem C2_empty_class_trailing_space :
    Button.buttonClass
        { button_type := "standard", size := "medium", button_style := "regular",
          class_name := "", onsignal := 0, children := 0 }
      = "button standard medium regular " := rfl

/-- C3: the wrap-mode mapping sends Hard to "hard", Off to "soft" and Soft
to "off", covering every WrapText value. -/
theorem C3_wrap_mapping :
    FormTextArea.get_wrap FormTextArea.WrapText.Hard = "hard"
      ∧ FormTextArea.get_wrap FormTextArea.WrapText.Off = "soft"
      ∧ FormTextArea.get_wrap FormTextArea.WrapText.Soft = "off" :=
  ⟨rfl, rfl, rfl⟩

/-- C4: for every palette token, the composed FormTextArea style derives its
interaction shades from the border color of the selected entry with the
fixed deltas hover -20, focus -10, active -30, both in the plain
hover/focus/active rules and in the underline variants. -/
theorem C4_interaction_deltas (p : Palette) :
    ((style_from p).bind (fun rs => findRule rs "&:hover")
        = (styleFromLookup p).map
            (fun e => [("border-color", CssValue.col (darker e.border_color (-20)))]))
    ∧ ((style_from p).bind (fun rs => findRule rs "&:focus")
        = (styleFromLookup p).map
            (fun e => [("border-color", CssValue.col (darker e.border_color (-10)))]))
    ∧ ((style_from p).bind (fun rs => findRule rs "&:active")
        = (styleFromLookup p).map
            (fun e => [("border-color", CssValue.col (darker e.border_color (-30)))]))
    ∧ ((style_from p).bind (fun rs => findRule rs "&.underline:hover")
        = (styleFromLookup p).map
            (fun e => [("border-bottom-color", CssValue.col (darker e.border_color (-20)))]))
    ∧ ((style_from p).bind (fun rs => findRule rs "&.underline:focus")
        = (styleFromLookup p).map
            (fun e => [("border-bottom-color", CssValue.col (darker e.border_color (-10)))]))
    ∧ ((style_from p).bind (fun rs => findRule rs "&.underline:active")
        = (styleFromLookup p).map
            (fun e => [("border-bottom-color", CssValue.col (darker e.border_color (-30)))])) := by
  cases p <;> exact ⟨rfl, rfl, rfl, rfl, rfl, rfl⟩

/-- C5: on any message (the only one is Clicked) Button.update emits exactly
one invocation of the onsignal callback of its properties, with the unit
payload, and nothing else. -/
theorem C5_button_click_emits_once (p : Button.ButtonProps) (m : Button.Msg) :
    (Button.update p m).emitted = [(p.onsignal, ())] := by
  cases m; rfl

/-- C6: FormTextArea.update forwards each event payload unchanged to the
matching signal callback of its properties, and performs no other
emission. -/
theorem C6_event_passthrough (p : FormTextArea.Props) :
    (∀ d, (FormTextArea.update p (FormTextArea.Msg.Input d)).emissions
        = [FormTextArea.Emission.input p.oninput_signal d])
    ∧ (∀ e, (FormTextArea.update p (FormTextArea.Msg.Blur e)).emissions
        = [FormTextArea.Emission.blur p.onblur_signal e])
    ∧ (∀ e, (FormTextArea.update p (FormTextArea.Msg.KeyPressed e)).emissions
        = [FormTextArea.Emission.keydown p.onkeydown_signal e]) :=
  ⟨fun _ => rfl, fun _ => rfl, fun _ => rfl⟩

/-- C7: the caller-injected style source appears in the composed class list
of the textarea together with the computed style, the size token and the
caller class name, and is always its last element. -/
theorem C7_styles_merged_last (p : FormTextArea.Props) :
    ∃ rules,
      style_from p.textarea_style = some rules
      ∧ FormTextArea.viewClasses p =
          some
            [ FormTextArea.ClassItem.style rules
            , FormTextArea.ClassItem.text (Helpers.get_size p.textarea_size)
            , FormTextArea.ClassItem.text p.class_name
            , FormTextArea.ClassItem.style p.styles ]
      ∧ (FormTextArea.viewClasses p).bind List.getLast?
          = some (FormTextArea.ClassItem.style p.styles) := by
  obtain ⟨e, rs, _, h2⟩ := style_from_total p.textarea_style
  refine ⟨rs, h2, ?_, ?_⟩ <;> simp [FormTextArea.viewClasses, h2]

/-- C8: for every palette token the lookup performed while composing the
FormTextArea style — reading the "outline" sub-table and finding the entry
named like the token — succeeds with a well-formed entry carrying that
name, so the two unwrap failure branches are unreachable. -/
theorem C8_palette_lookup_total (p : Palette) :
    ∃ e, styleFromLookup p = some e ∧ e.name = get_palette p := by
  cases p <;> exact ⟨_, rfl, rfl⟩

/-- C9 counterexample: Button.change violates the claimed diffing — fed
incoming properties whose resolution equals the stored set, it still
replaces the set and requests a re-render (returns true, not false). -/
theorem C9_change_counterexample :
    Button.change (Button.ButtonProps.fromProps demoButtonProps) demoButtonProps
      = (Button.ButtonProps.fromProps demoButtonProps, true) := rfl

/-- C9 (amended): FormTextArea.change diffs and replaces wholesale — equal
incoming properties leave the state unchanged and request no re-render,
differing ones replace it and request one — while Button.change replaces
wholesale unconditionally and always requests a re-render, even when the
incoming properties resolve to the stored set. -/
theorem C9_change_behaviour :
    (∀ s p : FormTextArea.Props, s = p → FormTextArea.change s p = (s, false))
    ∧ (∀ s p : FormTextArea.Props, s ≠ p → FormTextArea.change s p = (p, true))
    ∧ (∀ (s : Button.ButtonProps) (p : Button.Props),
        Button.change s p = (Button.ButtonProps.fromProps p, true)) := by
  refine ⟨?_, ?_, ?_⟩
  · intro s p h
    subst h
    simp [FormTextArea.change]
  · intro s p h
    simp [FormTextArea.change, h]
  · intro s p
    rfl

/-- C9 witness: the amended change behaviour at concrete property sets — an
equal pair, a differing pair, and a Button pair. -/
theorem C9_change_behaviour_witness :
    FormTextArea.change demoFormProps demoFormProps = (demoFormProps, false)
    ∧ FormTextArea.change demoFormProps demoFormPropsAlt = (demoFormPropsAlt, true)
    ∧ Button.change (Button.ButtonProps.fromProps demoButtonProps) demoButtonProps
        = (Button.ButtonProps.fromProps demoButtonProps, true) :=
  ⟨C9_change_behaviour.1 demoFormProps demoFormProps rfl,
   C9_change_behaviour.2.1 demoFormProps demoFormPropsAlt (by decide),
   C9_change_behaviour.2.2 (Button.ButtonProps.fromProps demoButtonProps) demoButtonProps⟩

/-- C10: for every property set the rendered textarea carries its wrap value
under the misspelled attribute name "warp" — equal to the wrap-mode mapping
of the wrap property — and has no attribute named "wrap" at all. -/
theorem C10_warp_attribute (p : FormTextArea.Props) :
    List.lookup "warp" (FormTextArea.viewAttributes p)
        = some (FormTextArea.AttrValue.str (FormTextArea.get_wrap p.wrap))
    ∧ List.lookup "wrap" (FormTextArea.viewAttributes p) = none :=
  ⟨rfl, rfl⟩

end YewStyles
